import Mathlib

/-!
# Verification of the rhoxy-socks SOCKS5 proxy core

A shallow embedding of the per-connection protocol engine of the
`rhoxy-socks` repository: wire constants, the reply encoder, method
negotiation, the request parser with its error-reply mapping, the
command handlers, and the optimized reply serializer.

Modelling conventions:
* a byte is a `Nat` (inputs are octets read off the wire; outputs are
  octets produced by the source's `write_u8`/`write_all` calls);
* an async writer is modelled by the list of bytes it emits, in order
  (`write_all` followed by `flush` emits exactly those bytes);
* an async reader is modelled by the list of bytes remaining on the
  stream; parsers return the unconsumed suffix;
* fallible operations return `Except`;
* the DNS resolver and the network (TCP connect / bind / accept
  outcomes) are oracles passed as explicit arguments.
-/

namespace Rhoxy

/-- `SOCKS5_VERSION` from `connection/mod.rs`. -/
def SOCKS5_VERSION : Nat := 0x05

/-- `RESERVED` from `connection/mod.rs`. -/
def RESERVED : Nat := 0x00

/-- `ERROR_ADDR` from `connection/mod.rs`: the 0.0.0.0 placeholder. -/
def ERROR_ADDR : List Nat := [0, 0, 0, 0]

/-- `ERROR_PORT` from `connection/mod.rs`. -/
def ERROR_PORT : Nat := 0

namespace ReplyCode

/-- Reply-code constants of the `Reply` enum (`connection/reply.rs` and
`connection/mod.rs`). -/
def SUCCESS : Nat := 0x00

def GENERAL_FAILURE : Nat := 0x01

def CONNECTION_NOT_ALLOWED : Nat := 0x02

def NETWORK_UNREACHABLE : Nat := 0x03

def HOST_UNREACHABLE : Nat := 0x04

def CONNECTION_REFUSED : Nat := 0x05

def TTL_EXPIRED : Nat := 0x06

def COMMAND_NOT_SUPPORTED : Nat := 0x07

def ADDRESS_TYPE_NOT_SUPPORTED : Nat := 0x08

end ReplyCode

/-- `std::net::IpAddr`: an IPv4 address carries its 4 octets, an IPv6
address its 16 octets. -/
inductive IpAddr where
  | v4 (octets : List Nat)
  | v6 (octets : List Nat)
deriving DecidableEq, Repr

/-- `octets()` on either address family. -/
def IpAddr.octets : IpAddr → List Nat
  | .v4 o => o
  | .v6 o => o

/-- The address-type tag the reply serializers pick for each family
(`AddressType::IPV4` / `AddressType::IPV6`). -/
def IpAddr.atypCode : IpAddr → Nat
  | .v4 _ => 0x01
  | .v6 _ => 0x04

/-- `u16` big-endian encoding, as produced by `write_u16` and
`u16::to_be_bytes`. -/
def u16be (port : Nat) : List Nat := [port / 256 % 256, port % 256]

/-- `send_reply` (`connection/mod.rs` lines 163-181): writes version,
reply code, reserved, address type, address bytes, then the port
big-endian, and flushes. The writer model is the emitted byte list. -/
def send_reply (replyCode atypCode : Nat) (addrBytes : List Nat) (port : Nat) :
    List Nat :=
  SOCKS5_VERSION :: replyCode :: RESERVED :: atypCode :: (addrBytes ++ u16be port)

/-- `send_error_reply` (`connection/mod.rs` lines 194-206): a reply with
the given code, IPv4 address type, `ERROR_ADDR` and `ERROR_PORT`. -/
def send_error_reply (errorCode : Nat) : List Nat :=
  send_reply errorCode 0x01 ERROR_ADDR ERROR_PORT

/-! ## Method negotiation (`connection/method/`) -/

/-- The `Method` enum (`connection/method/method.rs`). -/
inductive Method where
  | noAuthenticationRequired
  | gssapi
  | usernamePassword
  | ianaAssigned
  | reservedForPrivateMethods
  | noAcceptableMethods
deriving DecidableEq, Repr

/-- The `repr(u8)` discriminant of each `Method` variant. -/
def Method.toU8 : Method → Nat
  | .noAuthenticationRequired => 0x00
  | .gssapi => 0x01
  | .usernamePassword => 0x02
  | .ianaAssigned => 0x03
  | .reservedForPrivateMethods => 0x80
  | .noAcceptableMethods => 0xFF

/-- `Method::from_u8`. -/
def Method.fromU8 (value : Nat) : Option Method :=
  if value = 0x00 then some .noAuthenticationRequired
  else if value = 0x01 then some .gssapi
  else if value = 0x02 then some .usernamePassword
  else if value = 0x03 then some .ianaAssigned
  else if value = 0x80 then some .reservedForPrivateMethods
  else if value = 0xFF then some .noAcceptableMethods
  else none

/-- `Method::is_implemented`: only no-auth is implemented. -/
def Method.isImplemented : Method → Bool
  | .noAuthenticationRequired => true
  | _ => false

namespace MethodHandler

/-- The fixed `method_priority` array in `MethodHandler::negotiate`:
no-auth, username/password, GSSAPI, IANA, private. -/
def methodPriority : List Nat := [0x00, 0x02, 0x01, 0x03, 0x80]

/-- The loop body of `MethodHandler::negotiate`: walk the priority list;
a code qualifies when both sides offer it, it decodes, and the decoded
method is implemented; unimplemented common codes are skipped. -/
def negotiateGo (clientMethods serverMethods : List Nat) :
    List Nat → Option Method
  | [] => none
  | code :: rest =>
    if serverMethods.contains code && clientMethods.contains code then
      match Method.fromU8 code with
      | some m =>
        if m.isImplemented then some m
        else negotiateGo clientMethods serverMethods rest
      | none => negotiateGo clientMethods serverMethods rest
    else negotiateGo clientMethods serverMethods rest

/-- `MethodHandler::negotiate` (`connection/method/mod.rs` lines 66-107). -/
def negotiate (clientMethods serverMethods : List Nat) : Option Method :=
  negotiateGo clientMethods serverMethods methodPriority

/-- `MethodHandler::authenticate_method`: no-auth's sub-dialogue is empty;
every other method fails as unimplemented. -/
def authenticateMethod : Method → Except String Unit
  | .noAuthenticationRequired => .ok ()
  | .usernamePassword => .error "Username/password authentication not implemented"
  | .gssapi => .error "GSSAPI authentication not implemented"
  | _ => .error "Authentication method not implemented"

/-- `MethodHandler::handle_client_methods` (`connection/method/mod.rs`
lines 109-155): on a negotiated method write `[0x05, method]` and run its
sub-dialogue; otherwise write `[0x05, 0xFF]` and fail. Returns the bytes
written and the outcome. -/
def handleClientMethods (clientMethods serverMethods : List Nat) :
    List Nat × Except String Method :=
  match negotiate clientMethods serverMethods with
  | some m =>
    ([SOCKS5_VERSION, m.toU8],
      match authenticateMethod m with
      | .ok _ => .ok m
      | .error e => .error e)
  | none =>
    ([SOCKS5_VERSION, 0xFF], .error "No acceptable authentication methods")

end MethodHandler

/-- The selection rule as the specification words it: the first tag in the
fixed priority order that is in the server's supported set, in the
client's offered list, and implemented. -/
def specSelectMethod (clientMethods serverMethods : List Nat) : Option Nat :=
  (MethodHandler.methodPriority.filter fun code =>
    serverMethods.contains code && clientMethods.contains code &&
      (Method.fromU8 code).any Method.isImplemented).head?

/-! ## Client greeting parsers

The repository has two greeting parsers: `parse_client_greeting` in
`connection/handshake.rs` (lines 37-59) and
`MethodHandler::parse_client_greeting` in
`connection/method/method_handler.rs` (lines 179-210). Both produce the
same record shape (`HandshakeRequest` / `ClientGreeting`), so one
structure serves for both. -/

/-- `HandshakeRequest` (`connection/handshake.rs`) aka `ClientGreeting`
(`connection/method/client_greeting.rs`). -/
structure HandshakeRequest where
  version : Nat
  nmethods : Nat
  methods : List Nat
deriving DecidableEq, Repr

namespace Handshake

/-- `parse_client_greeting` from `connection/handshake.rs` lines 37-59:
checks the version octet, then reads `nmethods` and exactly that many
method octets. It performs NO check that `nmethods` is nonzero. -/
def parse_client_greeting (input : List Nat) :
    Except String (HandshakeRequest × List Nat) :=
  match input with
  | [] => .error "unexpected end of input"
  | version :: r1 =>
    if version ≠ SOCKS5_VERSION then .error "Expected SOCKS version 5"
    else
      match r1 with
      | [] => .error "unexpected end of input"
      | nmethods :: r2 =>
        if r2.length < nmethods then .error "unexpected end of input"
        else .ok (⟨version, nmethods, r2.take nmethods⟩, r2.drop nmethods)

/-- `handle_client_greeting` (`connection/handshake.rs` lines 61-74): a
TODO stub that writes `[0x05, 0x00]` (no-auth) regardless of the offered
methods. -/
def handle_client_greeting (_req : HandshakeRequest) : List Nat :=
  [SOCKS5_VERSION, 0x00]

end Handshake

namespace MethodHandler

/-- `MethodHandler::parse_client_greeting`
(`connection/method/method_handler.rs` lines 179-210): like the
handshake-module parser, but rejects `nmethods == 0` with "No
authentication methods provided". -/
def parse_client_greeting (input : List Nat) :
    Except String (HandshakeRequest × List Nat) :=
  match input with
  | [] => .error "unexpected end of input"
  | version :: r1 =>
    if version ≠ SOCKS5_VERSION then .error "Invalid SOCKS version"
    else
      match r1 with
      | [] => .error "unexpected end of input"
      | nmethods :: r2 =>
        if nmethods = 0 then .error "No authentication methods provided"
        else if r2.length < nmethods then .error "unexpected end of input"
        else .ok (⟨version, nmethods, r2.take nmethods⟩, r2.drop nmethods)

end MethodHandler

/-! ## Errors (`connection/error.rs`) -/

/-- The subset of `std::io::ErrorKind` the source inspects, plus a
catch-all for every other kind. -/
inductive ErrKind where
  | connectionRefused
  | timedOut
  | addrNotAvailable
  | networkUnreachable
  | permissionDenied
  | unexpectedEof
  | invalidData
  | otherKind (tag : Nat)
deriving DecidableEq, Repr

/-- The `SocksError` enum (`connection/error.rs` lines 5-18). -/
inductive SocksError where
  | invalidVersion (v : Nat)
  | invalidReservedByte (b : Nat)
  | unsupportedAddressType (t : Nat)
  | unsupportedCommand (c : Nat)
  | emptyDomainName
  | invalidDomainNameEncoding
  | dnsResolutionFailed
  | noAddressesResolved
  | connectionFailed (kind : ErrKind)
  | invalidData
  | ioError (kind : ErrKind)
deriving DecidableEq, Repr

/-- `SocksError::to_reply_code` (`connection/error.rs` lines 21-42). -/
def SocksError.toReplyCode : SocksError → Nat
  | .invalidVersion _ => ReplyCode.GENERAL_FAILURE
  | .invalidReservedByte _ => ReplyCode.GENERAL_FAILURE
  | .unsupportedAddressType _ => ReplyCode.ADDRESS_TYPE_NOT_SUPPORTED
  | .unsupportedCommand _ => ReplyCode.COMMAND_NOT_SUPPORTED
  | .emptyDomainName => ReplyCode.GENERAL_FAILURE
  | .invalidDomainNameEncoding => ReplyCode.GENERAL_FAILURE
  | .dnsResolutionFailed => ReplyCode.HOST_UNREACHABLE
  | .noAddressesResolved => ReplyCode.HOST_UNREACHABLE
  | .connectionFailed kind =>
    match kind with
    | .connectionRefused => ReplyCode.CONNECTION_REFUSED
    | .timedOut => ReplyCode.HOST_UNREACHABLE
    | .addrNotAvailable => ReplyCode.HOST_UNREACHABLE
    | .networkUnreachable => ReplyCode.NETWORK_UNREACHABLE
    | .permissionDenied => ReplyCode.CONNECTION_NOT_ALLOWED
    | _ => ReplyCode.GENERAL_FAILURE
  | .invalidData => ReplyCode.GENERAL_FAILURE
  | .ioError _ => ReplyCode.GENERAL_FAILURE

/-- `send_socks_error_reply` (`connection/mod.rs` lines 183-192). -/
def send_socks_error_reply (e : SocksError) : List Nat :=
  send_error_reply e.toReplyCode

/-! ## Address parsing (`connection/mod.rs` lines 63-161) -/

/-- A UTF-8 continuation byte. -/
def isCont (b : Nat) : Bool := 0x80 ≤ b && b ≤ 0xBF

/-- Standard UTF-8 validation/decoding as performed by Rust's
`String::from_utf8` (well-formed sequences only: no overlong forms, no
surrogates, nothing above U+10FFFF). Returns the code points on success. -/
def utf8Decode : List Nat → Option (List Nat)
  | [] => some []
  | b :: rest =>
    if b ≤ 0x7F then
      (utf8Decode rest).map fun cs => b :: cs
    else if 0xC2 ≤ b && b ≤ 0xDF then
      match rest with
      | b2 :: rest2 =>
        if isCont b2 then
          (utf8Decode rest2).map fun cs =>
            ((b - 0xC0) * 0x40 + (b2 - 0x80)) :: cs
        else none
      | [] => none
    else if 0xE0 ≤ b && b ≤ 0xEF then
      match rest with
      | b2 :: b3 :: rest3 =>
        let okB2 : Bool :=
          if b = 0xE0 then 0xA0 ≤ b2 && b2 ≤ 0xBF
          else if b = 0xED then 0x80 ≤ b2 && b2 ≤ 0x9F
          else isCont b2
        if okB2 && isCont b3 then
          (utf8Decode rest3).map fun cs =>
            ((b - 0xE0) * 0x1000 + (b2 - 0x80) * 0x40 + (b3 - 0x80)) :: cs
        else none
      | _ => none
    else if 0xF0 ≤ b && b ≤ 0xF4 then
      match rest with
      | b2 :: b3 :: b4 :: rest4 =>
        let okB2 : Bool :=
          if b = 0xF0 then 0x90 ≤ b2 && b2 ≤ 0xBF
          else if b = 0xF4 then 0x80 ≤ b2 && b2 ≤ 0x8F
          else isCont b2
        if okB2 && isCont b3 && isCont b4 then
          (utf8Decode rest4).map fun cs =>
            ((b - 0xF0) * 0x40000 + (b2 - 0x80) * 0x1000 +
              (b3 - 0x80) * 0x40 + (b4 - 0x80)) :: cs
        else none
      | _ => none
    else none

/-- The DNS resolver oracle: given the decoded domain string (as code
points), `none` models `resolve_domain` failing, `some l` models it
returning the IPs of the resolved socket addresses, in order. -/
def Resolver := List Nat → Option (List IpAddr)

namespace AddressType

/-- `AddressType::parse` (`connection/mod.rs` lines 85-155): dispatch on
the address-type tag; IPv4 reads 4 octets, IPv6 reads 16, domain reads a
length-prefixed name, decodes it as UTF-8, resolves it, and takes the
first resolved address. Unknown tags fail without consuming input.
Returns the outcome and the unconsumed input (empty on a short read). -/
def parse (resolver : Resolver) (atyp : Nat) (input : List Nat) :
    Except SocksError IpAddr × List Nat :=
  if atyp = 0x01 then
    match input with
    | a :: b :: c :: d :: rest => (.ok (.v4 [a, b, c, d]), rest)
    | _ => (.error (.ioError .unexpectedEof), [])
  else if atyp = 0x03 then
    match input with
    | [] => (.error (.ioError .unexpectedEof), [])
    | len :: rest =>
      if len = 0 then (.error .emptyDomainName, rest)
      else if rest.length < len then (.error (.ioError .unexpectedEof), [])
      else
        match utf8Decode (rest.take len) with
        | none => (.error .invalidDomainNameEncoding, rest.drop len)
        | some s =>
          match resolver s with
          | none => (.error .dnsResolutionFailed, rest.drop len)
          | some [] => (.error .noAddressesResolved, rest.drop len)
          | some (a :: _) => (.ok a, rest.drop len)
  else if atyp = 0x04 then
    if input.length < 16 then (.error (.ioError .unexpectedEof), [])
    else (.ok (.v6 (input.take 16)), input.drop 16)
  else (.error (.unsupportedAddressType atyp), input)

end AddressType

/-! ## Request parsing (`connection/request.rs`) -/

/-- `SocksRequest` (`connection/request.rs` lines 10-18). -/
structure SocksRequest where
  version : Nat
  command : Nat
  reserved : Nat
  address_type : Nat
  dest_addr : IpAddr
  dest_port : Nat
deriving DecidableEq, Repr

/-- A request-parse failure: either a plain read failure (no reply is
written) or a `SocksError` (an error reply is written first). -/
inductive ReqError where
  | eofMsg (msg : String)
  | socks (e : SocksError)
deriving DecidableEq, Repr

/-- `SocksRequest::parse_request` (`connection/request.rs` lines 66-133):
read version, command, reserved and address-type octets, parse the
address (writing a mapped error reply on address failure), read the
big-endian port, and only then validate the version and reserved octets
(writing a general-failure reply on mismatch). Returns the bytes written
to the client, the outcome, and the unconsumed input. -/
def SocksRequest.parse_request (resolver : Resolver) (input : List Nat) :
    List Nat × Except ReqError SocksRequest × List Nat :=
  match input with
  | [] => ([], .error (.eofMsg "Failed to read version"), [])
  | version :: r1 =>
    match r1 with
    | [] => ([], .error (.eofMsg "Failed to read command"), [])
    | command :: r2 =>
      match r2 with
      | [] => ([], .error (.eofMsg "Failed to read reserved byte"), [])
      | reserved :: r3 =>
        match r3 with
        | [] => ([], .error (.eofMsg "Failed to read address type"), [])
        | atyp :: r4 =>
          match AddressType.parse resolver atyp r4 with
          | (.error se, r5) =>
            (send_socks_error_reply se, .error (.socks se), r5)
          | (.ok destAddr, r5) =>
            match r5 with
            | p1 :: p2 :: r6 =>
              if version ≠ SOCKS5_VERSION then
                (send_socks_error_reply (.invalidVersion version),
                  .error (.socks (.invalidVersion version)), r6)
              else if reserved ≠ RESERVED then
                (send_socks_error_reply (.invalidReservedByte reserved),
                  .error (.socks (.invalidReservedByte reserved)), r6)
              else
                ([], .ok ⟨version, command, reserved, atyp, destAddr,
                  p1 * 256 + p2⟩, r6)
            | _ => ([], .error (.eofMsg "Failed to read port"), [])

/-! ## Command dispatch (`connection/command/mod.rs`) -/

/-- The `Command` enum. -/
inductive Command where
  | connect
  | bind
  | udpAssociate
deriving DecidableEq, Repr

/-- `Command::parse_command` (`connection/command/mod.rs` lines 65-72). -/
def Command.parse_command (command : Nat) : Option Command :=
  if command = 0x01 then some .connect
  else if command = 0x02 then some .bind
  else if command = 0x03 then some .udpAssociate
  else none

/-- The driver step of `SocksRequest::handle_request`
(`connection/request.rs` lines 21-63, identically `handle_request` in
`connection/handler.rs`): parse the request; on an unknown command octet
write a command-not-supported error reply and fail; on a known command
hand the request to that command's handler (the handlers are modelled
separately below). -/
def SocksRequest.handle_request (resolver : Resolver) (input : List Nat) :
    List Nat × Except String (SocksRequest × Command × List Nat) :=
  match SocksRequest.parse_request resolver input with
  | (written, .error _, _) => (written, .error "request parsing failed")
  | (written, .ok req, rest) =>
    match Command.parse_command req.command with
    | none =>
      (written ++ send_error_reply ReplyCode.COMMAND_NOT_SUPPORTED,
        .error "Unsupported SOCKS command")
    | some cmd => (written, .ok (req, cmd, rest))

/-! ## Command results and reply serialization -/

/-- `CommandResult` (`connection/command/mod.rs` lines 83-88, with the
`stream` field used by `connection/handler.rs` and
`connection/optimized_handler.rs`; the socket is abstracted to a
presence marker). -/
structure CommandResult where
  reply_code : Nat
  bind_addr : IpAddr
  bind_port : Nat
  stream : Option Unit
deriving DecidableEq, Repr

/-- `CommandResult::success`. -/
def CommandResult.success (bind_addr : IpAddr) (bind_port : Nat) :
    CommandResult :=
  ⟨ReplyCode.SUCCESS, bind_addr, bind_port, none⟩

/-- `CommandResult::error`: the zero address and port zero. -/
def CommandResult.error (reply_code : Nat) : CommandResult :=
  ⟨reply_code, .v4 ERROR_ADDR, ERROR_PORT, none⟩

/-- `CommandResult::send_reply` (`connection/command/mod.rs` lines
111-139): dispatch on the bound address's family to pick the address
type and octets, then call the `send_reply` wire primitive. -/
def CommandResult.send_reply (r : CommandResult) : List Nat :=
  match r.bind_addr with
  | .v4 o => Rhoxy.send_reply r.reply_code 0x01 o r.bind_port
  | .v6 o => Rhoxy.send_reply r.reply_code 0x04 o r.bind_port

/-- `CommandResult::send_reply_optimized`
(`connection/optimized_handler.rs` lines 25-67): fill one stack buffer
with version, reply code, reserved, then the family tag and octets, then
the big-endian port, and write it with a single call. The buffer fill is
modelled by the segments in write order. -/
def CommandResult.send_reply_optimized (r : CommandResult) : List Nat :=
  [SOCKS5_VERSION, r.reply_code, RESERVED] ++
    (match r.bind_addr with
      | .v4 o => 0x01 :: o
      | .v6 o => 0x04 :: o) ++
    u16be r.bind_port

/-! ## Command handlers (`connection/command/`) -/

namespace Connect

/-- The error-classification match inside `connect::handle_command`
(`connection/command/connect.rs` lines 36-43). -/
def classifyError : ErrKind → Nat
  | .connectionRefused => ReplyCode.CONNECTION_REFUSED
  | .timedOut => ReplyCode.HOST_UNREACHABLE
  | .addrNotAvailable => ReplyCode.HOST_UNREACHABLE
  | .networkUnreachable => ReplyCode.NETWORK_UNREACHABLE
  | .permissionDenied => ReplyCode.CONNECTION_NOT_ALLOWED
  | _ => ReplyCode.GENERAL_FAILURE

/-- `connect::handle_command` (`connection/command/connect.rs` lines
12-84) up to the reply: the oracle is the outcome of
`TcpStream::connect` (on success it carries the outbound socket's local
address and port). On failure, classify the error kind, write the mapped
error reply, and surface the error — no target stream is produced. On
success, write a success reply carrying the local endpoint (the
subsequent relay exchanges payload bytes, not protocol bytes, and is
outside this byte model). -/
def handle_command (_req : SocksRequest)
    (connectResult : Except ErrKind (IpAddr × Nat)) :
    List Nat × Except ErrKind Unit :=
  match connectResult with
  | .error e => (send_error_reply (classifyError e), .error e)
  | .ok (localAddr, localPort) =>
    (Rhoxy.send_reply ReplyCode.SUCCESS localAddr.atypCode localAddr.octets
      localPort, .ok ())

end Connect

/-- The outcome of `listener.accept()` under the 30-second timeout in
`bind::handle_command`. -/
inductive BindAccept where
  | conn (peer : IpAddr) (peerPort : Nat)
  | acceptFailed
  | timedOut
deriving DecidableEq, Repr

/-- The network oracle for `bind::handle_command`: the local address of
`TcpListener::bind("0.0.0.0:0")` when it succeeds, and the accept
outcome. -/
structure BindEnv where
  bindLocal : Option (IpAddr × Nat)
  accept : BindAccept
deriving DecidableEq, Repr

namespace Bind

/-- `bind::handle_command` (`connection/command/bind.rs` lines 11-91):
bind a listener (failure yields a general-failure result without
writing); send a FIRST reply with the bound address; wait for an inbound
connection; then send a second reply — success with the peer endpoint
when the peer matches the request's destination, connection-refused when
it does not, general failure on accept error, TTL-expired on timeout. -/
def handle_command (req : SocksRequest) (env : BindEnv) :
    List Nat × Except String CommandResult :=
  match env.bindLocal with
  | none => ([], .ok (CommandResult.error ReplyCode.GENERAL_FAILURE))
  | some (boundIp, boundPort) =>
    let firstReply := CommandResult.success boundIp boundPort
    match env.accept with
    | .conn peer peerPort =>
      if peer ≠ req.dest_addr then
        let secondReply := CommandResult.error ReplyCode.CONNECTION_REFUSED
        (firstReply.send_reply ++ secondReply.send_reply, .ok secondReply)
      else
        let secondReply := CommandResult.success peer peerPort
        (firstReply.send_reply ++ secondReply.send_reply, .ok secondReply)
    | .acceptFailed =>
      let secondReply := CommandResult.error ReplyCode.GENERAL_FAILURE
      (firstReply.send_reply ++ secondReply.send_reply, .ok secondReply)
    | .timedOut =>
      let secondReply := CommandResult.error ReplyCode.TTL_EXPIRED
      (firstReply.send_reply ++ secondReply.send_reply, .ok secondReply)

end Bind

namespace UdpAssociate

/-- `udp_associate::handle_command`
(`connection/command/udp_associate.rs` lines 9-38): write a
command-not-supported reply with the zero address, then fail with an
"unsupported" error. -/
def handle_command (_req : SocksRequest) : List Nat × Except String Unit :=
  (Rhoxy.send_reply ReplyCode.COMMAND_NOT_SUPPORTED 0x01 ERROR_ADDR
    ERROR_PORT, .error "UDP ASSOCIATE request handling not implemented")

end UdpAssociate

/-! ## Theorems -/

/-- C7: for every reply code, `send_error_reply` emits exactly the
10-byte frame `[0x05, code, 0x00, 0x01, 0x00, 0x00, 0x00, 0x00, 0x00,
0x00]` (IPv4 address type, address 0.0.0.0, port 0) in one flushed
write; in particular no error reply shorter than 10 bytes is ever
written. -/
theorem send_error_reply_exact_frame (errorCode : Nat) :
    send_error_reply errorCode =
      [0x05, errorCode, 0x00, 0x01, 0x00, 0x00, 0x00, 0x00, 0x00, 0x00] ∧
    (send_error_reply errorCode).length = 10 := by
  constructor <;>
    simp [send_error_reply, send_reply, u16be, ERROR_ADDR, ERROR_PORT,
      SOCKS5_VERSION, RESERVED]

/-- C10: for every `CommandResult` (any reply code, any IPv4 or IPv6
bind address, any port), the optimized single-buffer serializer
`send_reply_optimized` emits exactly the same byte sequence as the plain
serializer `send_reply` composed with the wire primitive. -/
theorem send_reply_optimized_refines_send_reply (r : CommandResult) :
    r.send_reply_optimized = r.send_reply := by
  cases h : r.bind_addr <;>
    simp [CommandResult.send_reply_optimized, CommandResult.send_reply, h,
      send_reply]

/-- C6: on a failed outbound CONNECT, the handler writes exactly one
10-byte error reply whose code is given by the error-kind
classification — connection refused ↦ 0x05, timed out ↦ 0x04, address
not available ↦ 0x04, network unreachable ↦ 0x03, permission denied ↦
0x02, every other kind ↦ 0x01 — and surfaces the error, producing no
target socket. -/
theorem connect_failure_reply_mapping (req : SocksRequest) (e : ErrKind) :
    Connect.handle_command req (.error e) =
      ([0x05, Connect.classifyError e, 0x00, 0x01, 0, 0, 0, 0, 0, 0],
        .error e) ∧
    Connect.classifyError .connectionRefused = 0x05 ∧
    Connect.classifyError .timedOut = 0x04 ∧
    Connect.classifyError .addrNotAvailable = 0x04 ∧
    Connect.classifyError .networkUnreachable = 0x03 ∧
    Connect.classifyError .permissionDenied = 0x02 ∧
    Connect.classifyError .unexpectedEof = 0x01 ∧
    Connect.classifyError .invalidData = 0x01 ∧
    (∀ tag, Connect.classifyError (.otherKind tag) = 0x01) := by
  refine ⟨?_, rfl, rfl, rfl, rfl, rfl, rfl, rfl, fun tag => rfl⟩
  simp [Connect.handle_command, send_error_reply, send_reply, u16be,
    ERROR_ADDR, ERROR_PORT, SOCKS5_VERSION, RESERVED]

/-- C3 counterexample: on the concrete input stream `[0x05, 0x00]`
(version 5, `nmethods` = 0), the handshake-module greeting parser
SUCCEEDS and returns a greeting with an empty methods list instead of
failing — refuting the claim for this parser. -/
theorem handshake_zero_methods_cex :
    (Handshake.parse_client_greeting [0x05, 0x00]).isOk = true ∧
    Handshake.parse_client_greeting [0x05, 0x00] = .ok (⟨5, 0, []⟩, []) := by
  constructor <;> rfl

/-- C3 (amended): on any stream starting `0x05, 0x00`, the
`MethodHandler` greeting parser fails with the "no methods" error, while
the handshake-module greeting parser succeeds and returns a greeting
with an empty methods list. -/
theorem greeting_zero_methods_two_parsers (rest : List Nat) :
    MethodHandler.parse_client_greeting (0x05 :: 0x00 :: rest) =
      .error "No authentication methods provided" ∧
    Handshake.parse_client_greeting (0x05 :: 0x00 :: rest) =
      .ok (⟨5, 0, []⟩, rest) := by
  constructor <;>
    simp [MethodHandler.parse_client_greeting, Handshake.parse_client_greeting,
      SOCKS5_VERSION]

/-- The concrete BIND request of the repository's own
`test_unsupported_bind_command` integration test: a validated request
with command 0x02 for destination 127.0.0.1:8080. -/
def bindFailingRequest : SocksRequest :=
  ⟨0x05, 0x02, 0x00, 0x01, .v4 [127, 0, 0, 1], 8080⟩

/-- A network environment in which `TcpListener::bind("0.0.0.0:0")`
succeeds (local endpoint 127.0.0.1:4000) and the expected peer connects
from 127.0.0.1:5000. -/
def bindSucceedingEnv : BindEnv :=
  ⟨some (.v4 [127, 0, 0, 1], 4000), .conn (.v4 [127, 0, 0, 1]) 5000⟩

/-- C2: evaluating the handlers at the failing input. The BIND handler is
NOT a stub: in an environment where listener creation succeeds, its
first reply is a SUCCESS (0x00) frame carrying the bound address
127.0.0.1:4000 — not the claimed `05 07 00 01 00 00 00 00 00 00` — and
its final result has reply code 0x00, contradicting the claim (and the
repository's `test_unsupported_bind_command`, which asserts any reply it
receives has a non-zero code). Only the UDP ASSOCIATE handler writes the
claimed command-not-supported frame, and even it surfaces an error
rather than producing a `CommandResult`. -/
theorem bind_is_not_a_stub :
    (Bind.handle_command bindFailingRequest bindSucceedingEnv).1.take 10 =
      [0x05, 0x00, 0x00, 0x01, 127, 0, 0, 1, 15, 160] ∧
    (Bind.handle_command bindFailingRequest bindSucceedingEnv).1.take 10 ≠
      [0x05, 0x07, 0x00, 0x01, 0, 0, 0, 0, 0, 0] ∧
    (Bind.handle_command bindFailingRequest bindSucceedingEnv).2 =
      .ok (CommandResult.success (.v4 [127, 0, 0, 1]) 5000) ∧
    (UdpAssociate.handle_command bindFailingRequest).1 =
      [0x05, 0x07, 0x00, 0x01, 0, 0, 0, 0, 0, 0] ∧
    (UdpAssociate.handle_command bindFailingRequest).2 =
      .error "UDP ASSOCIATE request handling not implemented" := by
  refine ⟨by decide, by decide, rfl, by decide, rfl⟩

/-- Unfolding one step of the `negotiate` loop. -/
theorem negotiateGo_cons (M S : List Nat) (code : Nat) (rest : List Nat) :
    MethodHandler.negotiateGo M S (code :: rest) =
      if S.contains code && M.contains code then
        match Method.fromU8 code with
        | some m =>
          if m.isImplemented then some m
          else MethodHandler.negotiateGo M S rest
        | none => MethodHandler.negotiateGo M S rest
      else MethodHandler.negotiateGo M S rest := by
  simp only [MethodHandler.negotiateGo]

/-- A priority code whose decoded method is unimplemented is skipped by
the `negotiate` loop whether or not both sides offer it. -/
theorem negotiateGo_skip (M S : List Nat) (code : Nat) (rest : List Nat)
    (h : ∀ m, Method.fromU8 code = some m → m.isImplemented = false) :
    MethodHandler.negotiateGo M S (code :: rest) =
      MethodHandler.negotiateGo M S rest := by
  rw [negotiateGo_cons]
  split_ifs with h1
  · cases hf : Method.fromU8 code with
    | none => rfl
    | some m => simp [h m hf]
  · rfl

/-- Walking the concrete priority list, the only code that can be
selected is 0x00 (no-auth): every other listed code decodes to an
unimplemented method and is skipped. -/
theorem negotiate_eq (M S : List Nat) :
    MethodHandler.negotiate M S =
      (if S.contains 0x00 && M.contains 0x00 then
        some Method.noAuthenticationRequired
      else none) := by
  have himp2 : ∀ m, Method.fromU8 0x02 = some m → m.isImplemented = false := by
    intro m hm
    simp only [Method.fromU8] at hm
    norm_num at hm
    subst hm
    rfl
  have himp1 : ∀ m, Method.fromU8 0x01 = some m → m.isImplemented = false := by
    intro m hm
    simp only [Method.fromU8] at hm
    norm_num at hm
    subst hm
    rfl
  have himp3 : ∀ m, Method.fromU8 0x03 = some m → m.isImplemented = false := by
    intro m hm
    simp only [Method.fromU8] at hm
    norm_num at hm
    subst hm
    rfl
  have himp80 : ∀ m, Method.fromU8 0x80 = some m → m.isImplemented = false := by
    intro m hm
    simp only [Method.fromU8] at hm
    norm_num at hm
    subst hm
    rfl
  have hnil : MethodHandler.negotiateGo M S [] = none := by
    simp only [MethodHandler.negotiateGo]
  unfold MethodHandler.negotiate MethodHandler.methodPriority
  rw [negotiateGo_cons, negotiateGo_skip M S 0x02 _ himp2,
    negotiateGo_skip M S 0x01 _ himp1, negotiateGo_skip M S 0x03 _ himp3,
    negotiateGo_skip M S 0x80 _ himp80, hnil]
  split_ifs <;> simp [Method.fromU8, Method.isImplemented]

/-- The specification-side selection rule also reduces to "0x00 is
offered by both sides". -/
theorem specSelectMethod_eq (M S : List Nat) :
    specSelectMethod M S =
      (if S.contains 0x00 && M.contains 0x00 then some 0x00 else none) := by
  unfold specSelectMethod MethodHandler.methodPriority
  by_cases hS : (0x00 : Nat) ∈ S <;> by_cases hM : (0x00 : Nat) ∈ M <;>
    simp [List.filter, Method.fromU8, Method.isImplemented, Option.any,
      hS, hM]

/-- C1: the handshake's method selection follows the fixed priority
order. Whenever the first tag `m` in `[no-auth, username/password,
GSSAPI, IANA, private]` that is supported by the server, offered by the
client, and implemented exists (`specSelectMethod`), the handshake
writes exactly `[0x05, m]`; when no tag qualifies it writes exactly
`[0x05, 0xFF]` and fails with the "no acceptable methods" error; in
particular, for every client methods list disjoint from the server's
supported set the bytes written are exactly `[0x05, 0xFF]`. -/
theorem method_negotiation_selects_priority (M S : List Nat) :
    (∀ m, specSelectMethod M S = some m →
      ∃ mm : Method, mm.toU8 = m ∧
        MethodHandler.handleClientMethods M S = ([0x05, m], .ok mm)) ∧
    (specSelectMethod M S = none →
      MethodHandler.handleClientMethods M S =
        ([0x05, 0xFF], .error "No acceptable authentication methods")) ∧
    ((∀ code, code ∈ M → code ∉ S) →
      MethodHandler.handleClientMethods M S =
        ([0x05, 0xFF], .error "No acceptable authentication methods")) := by
  by_cases hc : (S.contains 0x00 && M.contains 0x00) = true
  · have hmem : (0x00 : Nat) ∈ S ∧ (0x00 : Nat) ∈ M := by simpa using hc
    refine ⟨?_, ?_, ?_⟩
    · intro m hm
      rw [specSelectMethod_eq, if_pos hc] at hm
      refine ⟨.noAuthenticationRequired, ?_, ?_⟩
      · simpa [Method.toU8] using Option.some.inj hm
      · rw [← Option.some.inj hm]
        simp [MethodHandler.handleClientMethods, negotiate_eq, hmem.1, hmem.2,
          MethodHandler.authenticateMethod, Method.toU8, SOCKS5_VERSION]
    · intro hm
      rw [specSelectMethod_eq, if_pos hc] at hm
      cases hm
    · intro hdisj
      exact absurd hmem.1 (hdisj _ hmem.2)
  · have hmem : ¬((0x00 : Nat) ∈ S ∧ (0x00 : Nat) ∈ M) := by
      simpa using hc
    have hnone : MethodHandler.handleClientMethods M S =
        ([0x05, 0xFF], .error "No acceptable authentication methods") := by
      simp [MethodHandler.handleClientMethods, negotiate_eq, hmem,
        SOCKS5_VERSION]
    refine ⟨?_, fun _ => hnone, fun _ => hnone⟩
    intro m hm
    rw [specSelectMethod_eq, if_neg hc] at hm
    cases hm

/-- C1 witness: with the client offering only GSSAPI and the server
supporting only no-auth (disjoint sets), the handshake writes exactly
`[0x05, 0xFF]` and fails. -/
theorem method_negotiation_selects_priority_witness :
    MethodHandler.handleClientMethods [0x01] [0x00] =
      ([0x05, 0xFF], .error "No acceptable authentication methods") :=
  (method_negotiation_selects_priority [0x01] [0x00]).2.2 (by decide)

/-! Reduction lemmas for the address parser and the request parser. -/

theorem addressTypeParse_v4 (resolver : Resolver) (a b c d : Nat)
    (rest : List Nat) :
    AddressType.parse resolver 0x01 (a :: b :: c :: d :: rest) =
      (.ok (.v4 [a, b, c, d]), rest) := by
  simp [AddressType.parse]

theorem addressTypeParse_v6 (resolver : Resolver) (bs rest : List Nat)
    (h : bs.length = 16) :
    AddressType.parse resolver 0x04 (bs ++ rest) = (.ok (.v6 bs), rest) := by
  have hge : ¬((bs ++ rest).length < 16) := by
    rw [List.length_append, h]; omega
  simp [AddressType.parse, hge, List.take_left' h, List.drop_left' h]
  rw [h]; omega

theorem addressTypeParse_unknown (resolver : Resolver) (atyp : Nat)
    (input : List Nat) (h1 : atyp ≠ 0x01) (h3 : atyp ≠ 0x03)
    (h4 : atyp ≠ 0x04) :
    AddressType.parse resolver atyp input =
      (.error (.unsupportedAddressType atyp), input) := by
  simp [AddressType.parse, h1, h3, h4]

theorem addressTypeParse_domain_empty (resolver : Resolver)
    (rest : List Nat) :
    AddressType.parse resolver 0x03 (0x00 :: rest) =
      (.error .emptyDomainName, rest) := by
  simp [AddressType.parse]

theorem addressTypeParse_domain (resolver : Resolver) (n : Nat)
    (ds rest : List Nat) (hlen : ds.length = n) (hn : n ≠ 0) :
    AddressType.parse resolver 0x03 (n :: (ds ++ rest)) =
      ((match utf8Decode ds with
        | none => .error .invalidDomainNameEncoding
        | some s =>
          match resolver s with
          | none => .error .dnsResolutionFailed
          | some [] => .error .noAddressesResolved
          | some (a :: _) => .ok a), rest) := by
  have hge : ¬((ds ++ rest).length < n) := by
    rw [List.length_append, hlen]; omega
  simp only [AddressType.parse, hn, hge, List.take_left' hlen,
    List.drop_left' hlen, if_false, if_true, ite_false, ite_true]
  norm_num
  cases hu : utf8Decode ds with
  | none => simp [hu]
  | some s =>
    cases hr : resolver s with
    | none => simp [hu, hr]
    | some addrs => cases addrs <;> simp [hu, hr]

theorem parse_request_cons (resolver : Resolver) (v c r t : Nat)
    (r4 : List Nat) :
    SocksRequest.parse_request resolver (v :: c :: r :: t :: r4) =
      match AddressType.parse resolver t r4 with
      | (.error se, r5) => (send_socks_error_reply se, .error (.socks se), r5)
      | (.ok destAddr, r5) =>
        match r5 with
        | p1 :: p2 :: r6 =>
          if v ≠ SOCKS5_VERSION then
            (send_socks_error_reply (.invalidVersion v),
              .error (.socks (.invalidVersion v)), r6)
          else if r ≠ RESERVED then
            (send_socks_error_reply (.invalidReservedByte r),
              .error (.socks (.invalidReservedByte r)), r6)
          else ([], .ok ⟨v, c, r, t, destAddr, p1 * 256 + p2⟩, r6)
        | _ => ([], .error (.eofMsg "Failed to read port"), []) := by
  simp only [SocksRequest.parse_request]

/-- A resolver that always fails. -/
def resolverNone : Resolver := fun _ => none

/-- A resolver that always resolves to the empty address list. -/
def resolverNil : Resolver := fun _ => some []

/-- C5: the reply code of the error reply written on each request-parse
failure follows the documented mapping: address-type tag outside
{0x01, 0x03, 0x04} ↦ 0x08; empty domain name ↦ 0x01; domain bytes that
are not valid UTF-8 ↦ 0x01; name resolution failing ↦ 0x04; name
resolution yielding no address ↦ 0x04; version octet ≠ 0x05 ↦ 0x01;
reserved octet ≠ 0x00 ↦ 0x01. -/
theorem parse_failure_reply_mapping (resolver : Resolver) :
    (∀ v c r t rest, t ≠ 0x01 → t ≠ 0x03 → t ≠ 0x04 →
      (SocksRequest.parse_request resolver (v :: c :: r :: t :: rest)).1 =
        send_error_reply 0x08) ∧
    (∀ v c r rest,
      (SocksRequest.parse_request resolver
        (v :: c :: r :: 0x03 :: 0x00 :: rest)).1 = send_error_reply 0x01) ∧
    (∀ v c r n ds rest, ds.length = n → n ≠ 0 → utf8Decode ds = none →
      (SocksRequest.parse_request resolver
        (v :: c :: r :: 0x03 :: n :: (ds ++ rest))).1 =
        send_error_reply 0x01) ∧
    (∀ v c r n ds s rest, ds.length = n → n ≠ 0 → utf8Decode ds = some s →
      resolver s = none →
      (SocksRequest.parse_request resolver
        (v :: c :: r :: 0x03 :: n :: (ds ++ rest))).1 =
        send_error_reply 0x04) ∧
    (∀ v c r n ds s rest, ds.length = n → n ≠ 0 → utf8Decode ds = some s →
      resolver s = some [] →
      (SocksRequest.parse_request resolver
        (v :: c :: r :: 0x03 :: n :: (ds ++ rest))).1 =
        send_error_reply 0x04) ∧
    (∀ v c r a1 a2 a3 a4 p1 p2 rest, v ≠ 0x05 →
      (SocksRequest.parse_request resolver
        (v :: c :: r :: 0x01 :: a1 :: a2 :: a3 :: a4 :: p1 :: p2 :: rest)).1 =
        send_error_reply 0x01) ∧
    (∀ c r a1 a2 a3 a4 p1 p2 rest, r ≠ 0x00 →
      (SocksRequest.parse_request resolver
        (0x05 :: c :: r :: 0x01 :: a1 :: a2 :: a3 :: a4 :: p1 :: p2 ::
          rest)).1 = send_error_reply 0x01) := by
  refine ⟨?_, ?_, ?_, ?_, ?_, ?_, ?_⟩
  · intro v c r t rest h1 h3 h4
    rw [parse_request_cons, addressTypeParse_unknown resolver t rest h1 h3 h4]
    simp [send_socks_error_reply, SocksError.toReplyCode,
      ReplyCode.ADDRESS_TYPE_NOT_SUPPORTED]
  · intro v c r rest
    rw [parse_request_cons, addressTypeParse_domain_empty]
    simp [send_socks_error_reply, SocksError.toReplyCode,
      ReplyCode.GENERAL_FAILURE]
  · intro v c r n ds rest hlen hn hu
    rw [parse_request_cons, addressTypeParse_domain resolver n ds rest hlen hn]
    simp [hu, send_socks_error_reply, SocksError.toReplyCode,
      ReplyCode.GENERAL_FAILURE]
  · intro v c r n ds s rest hlen hn hu hr
    rw [parse_request_cons, addressTypeParse_domain resolver n ds rest hlen hn]
    simp [hu, hr, send_socks_error_reply, SocksError.toReplyCode,
      ReplyCode.HOST_UNREACHABLE]
  · intro v c r n ds s rest hlen hn hu hr
    rw [parse_request_cons, addressTypeParse_domain resolver n ds rest hlen hn]
    simp [hu, hr, send_socks_error_reply, SocksError.toReplyCode,
      ReplyCode.HOST_UNREACHABLE]
  · intro v c r a1 a2 a3 a4 p1 p2 rest hv
    rw [parse_request_cons, addressTypeParse_v4]
    simp [hv, SOCKS5_VERSION, send_socks_error_reply, SocksError.toReplyCode,
      ReplyCode.GENERAL_FAILURE]
  · intro c r a1 a2 a3 a4 p1 p2 rest hr
    rw [parse_request_cons, addressTypeParse_v4]
    simp [hr, SOCKS5_VERSION, RESERVED, send_socks_error_reply,
      SocksError.toReplyCode, ReplyCode.GENERAL_FAILURE]

/-- C5 witness: concrete inputs exercising every row of the mapping. -/
theorem parse_failure_reply_mapping_witness :
    (SocksRequest.parse_request resolverNone [0x05, 0x01, 0x00, 0x99]).1 =
      send_error_reply 0x08 ∧
    (SocksRequest.parse_request resolverNone
      [0x05, 0x01, 0x00, 0x03, 0x00, 0x00, 0x50]).1 = send_error_reply 0x01 ∧
    (SocksRequest.parse_request resolverNone
      [0x05, 0x01, 0x00, 0x03, 0x01, 0xFF]).1 = send_error_reply 0x01 ∧
    (SocksRequest.parse_request resolverNone
      [0x05, 0x01, 0x00, 0x03, 0x01, 0x61]).1 = send_error_reply 0x04 ∧
    (SocksRequest.parse_request resolverNil
      [0x05, 0x01, 0x00, 0x03, 0x01, 0x61]).1 = send_error_reply 0x04 ∧
    (SocksRequest.parse_request resolverNone
      [0x04, 0x01, 0x00, 0x01, 127, 0, 0, 1, 0, 80]).1 =
      send_error_reply 0x01 ∧
    (SocksRequest.parse_request resolverNone
      [0x05, 0x01, 0xFF, 0x01, 127, 0, 0, 1, 0, 80]).1 =
      send_error_reply 0x01 :=
  ⟨(parse_failure_reply_mapping resolverNone).1 0x05 0x01 0x00 0x99 []
      (by decide) (by decide) (by decide),
    (parse_failure_reply_mapping resolverNone).2.1 0x05 0x01 0x00 [0x00, 0x50],
    (parse_failure_reply_mapping resolverNone).2.2.1 0x05 0x01 0x00 0x01
      [0xFF] [] (by decide) (by decide) (by decide),
    (parse_failure_reply_mapping resolverNone).2.2.2.1 0x05 0x01 0x00 0x01
      [0x61] [0x61] [] (by decide) (by decide) (by decide) rfl,
    (parse_failure_reply_mapping resolverNil).2.2.2.2.1 0x05 0x01 0x00 0x01
      [0x61] [0x61] [] (by decide) (by decide) (by decide) rfl,
    (parse_failure_reply_mapping resolverNone).2.2.2.2.2.1 0x04 0x01 0x00
      127 0 0 1 0 80 [] (by decide),
    (parse_failure_reply_mapping resolverNone).2.2.2.2.2.2 0x01 0xFF
      127 0 0 1 0 80 [] (by decide)⟩

/-- C8: the request parser reads all six fields — version, command,
reserved, address type, destination address, destination port — before
validating the version and reserved octets: on every well-formed IPv4,
IPv6 or resolvable-domain frame whose version octet is not 0x05 or whose
reserved octet is not 0x00, it fails only after consuming the entire
frame, the two port bytes included (the unconsumed input is exactly the
suffix after the frame), while still writing the general-failure
reply. -/
theorem version_reserved_validated_after_full_read (resolver : Resolver) :
    (∀ v c r a1 a2 a3 a4 p1 p2 rest, ¬(v = 0x05 ∧ r = 0x00) →
      ∃ e, SocksRequest.parse_request resolver
          (v :: c :: r :: 0x01 :: a1 :: a2 :: a3 :: a4 :: p1 :: p2 :: rest) =
        (send_error_reply 0x01, .error (.socks e), rest)) ∧
    (∀ v c r bs p1 p2 rest, bs.length = 16 → ¬(v = 0x05 ∧ r = 0x00) →
      ∃ e, SocksRequest.parse_request resolver
          (v :: c :: r :: 0x04 :: (bs ++ p1 :: p2 :: rest)) =
        (send_error_reply 0x01, .error (.socks e), rest)) ∧
    (∀ v c r n ds s a addrs p1 p2 rest, ds.length = n → n ≠ 0 →
      utf8Decode ds = some s → resolver s = some (a :: addrs) →
      ¬(v = 0x05 ∧ r = 0x00) →
      ∃ e, SocksRequest.parse_request resolver
          (v :: c :: r :: 0x03 :: n :: (ds ++ p1 :: p2 :: rest)) =
        (send_error_reply 0x01, .error (.socks e), rest)) := by
  refine ⟨?_, ?_, ?_⟩
  · intro v c r a1 a2 a3 a4 p1 p2 rest h
    rw [parse_request_cons, addressTypeParse_v4]
    by_cases hv : v = SOCKS5_VERSION
    · have hr : r ≠ RESERVED := fun hr0 => h ⟨hv, hr0⟩
      exact ⟨.invalidReservedByte r, by
        simp [hv, hr, send_socks_error_reply, SocksError.toReplyCode,
          ReplyCode.GENERAL_FAILURE]⟩
    · exact ⟨.invalidVersion v, by
        simp [hv, send_socks_error_reply, SocksError.toReplyCode,
          ReplyCode.GENERAL_FAILURE]⟩
  · intro v c r bs p1 p2 rest hlen h
    rw [parse_request_cons, addressTypeParse_v6 resolver bs _ hlen]
    by_cases hv : v = SOCKS5_VERSION
    · have hr : r ≠ RESERVED := fun hr0 => h ⟨hv, hr0⟩
      exact ⟨.invalidReservedByte r, by
        simp [hv, hr, send_socks_error_reply, SocksError.toReplyCode,
          ReplyCode.GENERAL_FAILURE]⟩
    · exact ⟨.invalidVersion v, by
        simp [hv, send_socks_error_reply, SocksError.toReplyCode,
          ReplyCode.GENERAL_FAILURE]⟩
  · intro v c r n ds s a addrs p1 p2 rest hlen hn hu hres h
    rw [parse_request_cons, addressTypeParse_domain resolver n ds _ hlen hn]
    by_cases hv : v = SOCKS5_VERSION
    · have hr : r ≠ RESERVED := fun hr0 => h ⟨hv, hr0⟩
      exact ⟨.invalidReservedByte r, by
        simp [hu, hres, hv, hr, send_socks_error_reply,
          SocksError.toReplyCode, ReplyCode.GENERAL_FAILURE]⟩
    · exact ⟨.invalidVersion v, by
        simp [hu, hres, hv, send_socks_error_reply, SocksError.toReplyCode,
          ReplyCode.GENERAL_FAILURE]⟩

/-- C8 witness: a SOCKS4 version octet on an otherwise well-formed IPv4
frame is rejected only after the whole 10-byte frame is consumed,
leaving exactly the trailing byte `0xAB` unread. -/
theorem version_reserved_validated_after_full_read_witness :
    ∃ e, SocksRequest.parse_request resolverNone
        [0x04, 0x01, 0x00, 0x01, 127, 0, 0, 1, 0, 80, 0xAB] =
      (send_error_reply 0x01, .error (.socks e), [0xAB]) :=
  (version_reserved_validated_after_full_read resolverNone).1 0x04 0x01 0x00
    127 0 0 1 0 80 [0xAB] (by decide)

/-- C4: a request whose command octet is outside {0x01, 0x02, 0x03} but
whose remaining fields are well formed parses successfully with the
command octet passed through unchanged, and the driver then writes a
command-not-supported (0x07) error reply before surfacing the error. -/
theorem unknown_command_passthrough (resolver : Resolver)
    (c a1 a2 a3 a4 p1 p2 : Nat) (rest : List Nat)
    (h1 : c ≠ 0x01) (h2 : c ≠ 0x02) (h3 : c ≠ 0x03) :
    SocksRequest.parse_request resolver
        (0x05 :: c :: 0x00 :: 0x01 :: a1 :: a2 :: a3 :: a4 :: p1 :: p2 ::
          rest) =
      ([], .ok ⟨0x05, c, 0x00, 0x01, .v4 [a1, a2, a3, a4], p1 * 256 + p2⟩,
        rest) ∧
    SocksRequest.handle_request resolver
        (0x05 :: c :: 0x00 :: 0x01 :: a1 :: a2 :: a3 :: a4 :: p1 :: p2 ::
          rest) =
      ([0x05, 0x07, 0x00, 0x01, 0, 0, 0, 0, 0, 0],
        .error "Unsupported SOCKS command") := by
  have hparse : SocksRequest.parse_request resolver
      (0x05 :: c :: 0x00 :: 0x01 :: a1 :: a2 :: a3 :: a4 :: p1 :: p2 ::
        rest) =
      ([], .ok ⟨0x05, c, 0x00, 0x01, .v4 [a1, a2, a3, a4], p1 * 256 + p2⟩,
        rest) := by
    rw [parse_request_cons, addressTypeParse_v4]
    simp [SOCKS5_VERSION, RESERVED]
  refine ⟨hparse, ?_⟩
  simp [SocksRequest.handle_request, hparse, Command.parse_command,
    h1, h2, h3, send_error_reply, send_reply, u16be, ERROR_ADDR, ERROR_PORT,
    SOCKS5_VERSION, RESERVED, ReplyCode.COMMAND_NOT_SUPPORTED]

/-- C4 witness: command octet 0xFF on an otherwise valid CONNECT-shaped
frame. -/
theorem unknown_command_passthrough_witness :
    SocksRequest.handle_request resolverNone
        [0x05, 0xFF, 0x00, 0x01, 127, 0, 0, 1, 0, 80] =
      ([0x05, 0x07, 0x00, 0x01, 0, 0, 0, 0, 0, 0],
        .error "Unsupported SOCKS command") :=
  (unknown_command_passthrough resolverNone 0xFF 127 0 0 1 0 80 []
    (by decide) (by decide) (by decide)).2

end Rhoxy
